import Mathlib

/-
  Verification of the nginx log watcher (src/watcher.py) for the blue/green
  deployment monitor.  The Python source is shallowly embedded below:

  * the regex LOG_PATTERN and parse_log_line become executable functions on
    List Char (Python re semantics restricted to the ASCII character classes
    the log format uses: \s is modelled by the six ASCII whitespace
    characters and \d by the ASCII decimal digits);
  * the deque-based sliding window, the failover/recovery state machine and
    the error-rate check become pure functions over an explicit state;
  * send_slack_alert becomes a function of the gate state, the current
    instant (rationals model wall-clock seconds; the dyadic values involved
    are exact, so no floating point behaviour is lost) and the transport
    outcome, returning the branch taken and the updated cooldown table.
-/

/-- One entry of the sliding window (the dict appended to request_window in
process_log_entry). -/
structure Req where
  pool : String
  release : String
  status : Nat
  is_error : Bool
  timestamp : String
  upstream_status : String
  request_time : String
  upstream_response_time : String
  method : String
  uri : String
  upstream : String
deriving DecidableEq, Repr

/-- The configuration surface read from the environment at startup
(SLACK_WEBHOOK_URL modelled only by whether it is nonempty). -/
structure Config where
  slackWebhookConfigured : Bool
  errorRateThreshold : ℚ
  windowSize : Nat
  alertCooldownSec : ℚ
  maintenanceModeEnv : Bool
deriving Repr

/-- request_window.append on a deque with maxlen = cfg.windowSize: append on
the right, evicting from the left whenever the length would exceed the
capacity. -/
def pushWindow (cfg : Config) (w : List Req) (r : Req) : List Req :=
  let w2 := w ++ [r]
  if cfg.windowSize < w2.length then w2.drop (w2.length - cfg.windowSize) else w2

/-- A sequence of appends, in arrival order. -/
def pushAll (cfg : Config) (w : List Req) (rs : List Req) : List Req :=
  rs.foldl (pushWindow cfg) w

/-- sum(1 for req in request_window if req.get(..is_error.., False)). -/
def countErrors (w : List Req) : Nat :=
  (w.filter (fun r => r.is_error)).length

/-- get_current_error_rate: (rate percent, error count, total count), with
(0, 0, 0) on an empty window. -/
def get_current_error_rate (w : List Req) : ℚ × Nat × Nat :=
  if w.length = 0 then (0, 0, 0)
  else
    let error_count := countErrors w
    let total_count := w.length
    (((error_count : ℚ) / (total_count : ℚ)) * 100, error_count, total_count)

/-- The three alert kinds used as keys of last_alert_times. -/
inductive AlertKind
  | failover
  | error_rate
  | recovery
deriving DecidableEq, Repr

/-- The mutable cooldown table last_alert_times. -/
structure GateState where
  lastAlertTimes : AlertKind → ℚ

/-- Which branch of send_slack_alert was taken.  consolePrinted is the
console-only fallback when no webhook is configured (the alert text is
printed and False is returned); sentOk is the only branch returning True. -/
inductive SendResult
  | consolePrinted
  | maintenanceSuppressed
  | cooldownSuppressed
  | sentOk
  | sendFailed
deriving DecidableEq, Repr

/-- The boolean send_slack_alert returns for each branch. -/
def resultBool : SendResult → Bool
  | .sentOk => true
  | _ => false

/-- Whether the branch reached the HTTP post to the webhook. -/
def isDispatchAttempt : SendResult → Bool
  | .sentOk => true
  | .sendFailed => true
  | _ => false

/-- is_maintenance_mode: the MAINTENANCE_MODE environment flag or the
presence of the maintenance flag file, either alone being sufficient. -/
def is_maintenance_mode (cfg : Config) (flagFileExists : Bool) : Bool :=
  if cfg.maintenanceModeEnv then true
  else if flagFileExists then true
  else false

/-- send_slack_alert.  The checks run in source order: missing webhook URL
(console fallback, returns False), maintenance mode, cooldown, then the
HTTP post whose outcome is the transportOk argument; only a successful post
writes last_alert_times[alert_type] = now. -/
def send_slack_alert (cfg : Config) (flagFileExists : Bool) (st : GateState)
    (alert_type : AlertKind) (now : ℚ) (transportOk : Bool) :
    SendResult × GateState :=
  if cfg.slackWebhookConfigured = false then
    (SendResult.consolePrinted, st)
  else if is_maintenance_mode cfg flagFileExists then
    (SendResult.maintenanceSuppressed, st)
  else if now - st.lastAlertTimes alert_type < cfg.alertCooldownSec then
    (SendResult.cooldownSuppressed, st)
  else if transportOk then
    (SendResult.sentOk,
      { lastAlertTimes := fun k => if k = alert_type then now else st.lastAlertTimes k })
  else
    (SendResult.sendFailed, st)

/-- The pool-tracking globals together with the sliding window. -/
structure MonitorState where
  window : List Req
  last_known_pool : Option String
  failover_occurred : Bool
  failover_from_pool : Option String
deriving DecidableEq, Repr

/-- The state at process start. -/
def initState : MonitorState :=
  { window := [], last_known_pool := none
  , failover_occurred := false, failover_from_pool := none }

/-- An alert candidate: a call of send_slack_alert made by one of the three
checks, with the data it carries. -/
inductive AlertCand
  | failoverCand (fromPool toPool : String)
  | recoveryCand (pool : String)
  | errorRateCand (rate : ℚ) (errorCount total : Nat) (pool : String)
deriving DecidableEq, Repr

def isRecoveryCand : AlertCand → Bool
  | .recoveryCand _ => true
  | _ => false

/-- check_failover: skip unknown pools, silently initialise
last_known_pool on the first valid pool, and on a change emit a failover
candidate and record the pool just left in failover_from_pool. -/
def check_failover (s : MonitorState) (pool : String) :
    MonitorState × List AlertCand :=
  if pool = "" ∨ pool = "-" then (s, [])
  else
    match s.last_known_pool with
    | none => ({ s with last_known_pool := some pool }, [])
    | some last =>
      if pool ≠ last then
        ({ s with failover_occurred := true
                , failover_from_pool := some last
                , last_known_pool := some pool },
         [AlertCand.failoverCand last pool])
      else (s, [])

/-- check_recovery: only when a failover was recorded and
failover_from_pool is truthy; emits a recovery candidate and resets the
failover state when the current pool equals failover_from_pool. -/
def check_recovery (s : MonitorState) (pool : String) :
    MonitorState × List AlertCand :=
  if s.failover_occurred = false then (s, [])
  else
    match s.failover_from_pool with
    | none => (s, [])
    | some f =>
      if f = "" then (s, [])
      else if pool = f then
        ({ s with failover_occurred := false, failover_from_pool := none },
         [AlertCand.recoveryCand pool])
      else (s, [])

def unknownPool : String := "unknown"

/-- request_window[-1].get with default (the window is never empty at the
call site, since process_log_entry appends before the checks run). -/
def currentPoolOf (w : List Req) : String :=
  match w.getLast? with
  | none => unknownPool
  | some r => r.pool

/-- check_error_rate: evaluates only at full capacity; fires on a strict
threshold excess, carrying the rate, the counts and the pool of the most
recent record. -/
def check_error_rate (cfg : Config) (w : List Req) : List AlertCand :=
  if w.length < cfg.windowSize then []
  else
    let error_count := countErrors w
    let error_rate := ((error_count : ℚ) / (w.length : ℚ)) * 100
    if cfg.errorRateThreshold < error_rate then
      [AlertCand.errorRateCand error_rate error_count w.length (currentPoolOf w)]
    else []

/-- The dictionary parse_log_line yields: the ten matched fields, with
status coerced to an integer and upstream_status additionally split into
its numeric codes. -/
structure LogData where
  pool : String
  release : String
  status : Nat
  upstream_status : String
  upstream_status_codes : List Nat
  upstream : String
  request_time : String
  upstream_response_time : String
  method : String
  uri : String
  time : String
deriving DecidableEq, Repr

/-- 500 <= status < 600, as computed in process_log_entry. -/
def isErrorStatus (st : Nat) : Bool := decide (500 ≤ st ∧ st < 600)

/-- The window entry built from a parsed record at the top of
process_log_entry. -/
def reqOf (data : LogData) : Req :=
  { pool := data.pool, release := data.release, status := data.status
  , is_error := isErrorStatus data.status, timestamp := data.time
  , upstream_status := data.upstream_status
  , request_time := data.request_time
  , upstream_response_time := data.upstream_response_time
  , method := data.method, uri := data.uri, upstream := data.upstream }

/-- process_log_entry: append the record to the window, then run the
failover check, the recovery check and the error-rate check, in that
order, collecting every alert candidate raised. -/
def process_log_entry (cfg : Config) (s : MonitorState) (data : LogData) :
    MonitorState × List AlertCand :=
  let s0 := { s with window := pushWindow cfg s.window (reqOf data) }
  let fo := check_failover s0 data.pool
  let rc := check_recovery fo.1 data.pool
  let er := check_error_rate cfg rc.1.window
  (rc.1, fo.2 ++ rc.2 ++ er)

/-- Feed a finite sequence of parsed records through process_log_entry,
concatenating the alert candidates in emission order. -/
def processAll (cfg : Config) (s : MonitorState) (ds : List LogData) :
    MonitorState × List AlertCand :=
  match ds with
  | [] => (s, [])
  | d :: rest =>
    let step := process_log_entry cfg s d
    let next := processAll cfg step.1 rest
    (next.1, step.2 ++ next.2)

/-- The whitespace class of the log lines (Python re \s restricted to the
six ASCII whitespace characters). -/
def pySpace (c : Char) : Bool :=
  c == ' ' || c == '\t' || c == '\n' || c == '\r' || c == '\x0b' || c == '\x0c'

/-- Python str.strip on both ends. -/
def pyStrip (cs : List Char) : List Char :=
  ((cs.dropWhile pySpace).reverse.dropWhile pySpace).reverse

/-- Decimal value of a digit run. -/
def digitsVal (cs : List Char) : Nat :=
  cs.foldl (fun a c => 10 * a + (c.toNat - 48)) 0

/-- Python int() restricted to the token shapes the watcher feeds it
(strings guarded by isdigit or produced by the regex group \d+): succeeds
exactly on a nonempty run of decimal digits. -/
def pyIntDigits? (cs : List Char) : Option Nat :=
  if cs ≠ [] ∧ cs.all Char.isDigit then some (digitsVal cs) else none

def poolKey : List Char := "pool=".data
def releaseKey : List Char := "release=".data
def statusKey : List Char := "status=".data
def upstreamStatusKey : List Char := "upstream_status=".data
def upstreamKey : List Char := "upstream=".data
def requestTimeKey : List Char := "request_time=".data
def upstreamResponseTimeKey : List Char := "upstream_response_time=".data
def methodKey : List Char := "method=".data
def uriKey : List Char := "uri=".data
def timeKey : List Char := "time=".data

/-- Consume an exact literal. -/
def matchLit : List Char → List Char → Option (List Char)
  | [], cs => some cs
  | _ :: _, [] => none
  | k :: ks, c :: cs => if c = k then matchLit ks cs else none

/-- The \s+ separating two fields: at least one whitespace character, taken
greedily (the following literal starts with a non-space character, so the
greedy run is the unique match). -/
def matchSpaces1 : List Char → Option (List Char)
  | [] => none
  | c :: cs => if pySpace c then some (cs.dropWhile pySpace) else none

/-- One key=(?P<v>[^\s]*) group: the literal key followed by the maximal
run of non-whitespace characters as the value. -/
def matchField (key cs : List Char) : Option (List Char × List Char) :=
  match matchLit key cs with
  | none => none
  | some cs1 =>
    some (cs1.takeWhile (fun c => !pySpace c), cs1.dropWhile (fun c => !pySpace c))

/-- A non-final field: key, value, then \s+. -/
def matchFieldSp (key cs : List Char) : Option (List Char × List Char) :=
  match matchField key cs with
  | none => none
  | some (v, cs1) =>
    match matchSpaces1 cs1 with
    | none => none
    | some cs2 => some (v, cs2)

/-- The status field: status=(?P<status>\d+)\s+ — the value must be a
nonempty digit run. -/
def matchStatusSp (cs : List Char) : Option (List Char × List Char) :=
  match matchLit statusKey cs with
  | none => none
  | some cs1 =>
    let ds := cs1.takeWhile Char.isDigit
    if ds = [] then none
    else
      match matchSpaces1 (cs1.dropWhile Char.isDigit) with
      | none => none
      | some cs2 => some (ds, cs2)

/-- The ten raw regex groups of LOG_PATTERN. -/
structure RawMatch where
  pool : List Char
  release : List Char
  status : List Char
  upstream_status : List Char
  upstream : List Char
  request_time : List Char
  upstream_response_time : List Char
  method : List Char
  uri : List Char
  time : List Char
deriving DecidableEq, Repr

/-- LOG_PATTERN.match: the ten fields in their mandated order, anchored at
the start; anything after the time value is ignored. -/
def matchLogPattern (cs : List Char) : Option RawMatch :=
  (matchFieldSp poolKey cs).bind fun p1 =>
  (matchFieldSp releaseKey p1.2).bind fun p2 =>
  (matchStatusSp p2.2).bind fun p3 =>
  (matchFieldSp upstreamStatusKey p3.2).bind fun p4 =>
  (matchFieldSp upstreamKey p4.2).bind fun p5 =>
  (matchFieldSp requestTimeKey p5.2).bind fun p6 =>
  (matchFieldSp upstreamResponseTimeKey p6.2).bind fun p7 =>
  (matchFieldSp methodKey p7.2).bind fun p8 =>
  (matchFieldSp uriKey p8.2).bind fun p9 =>
  (matchField timeKey p9.2).bind fun p10 =>
  some { pool := p1.1, release := p2.1, status := p3.1, upstream_status := p4.1
       , upstream := p5.1, request_time := p6.1, upstream_response_time := p7.1
       , method := p8.1, uri := p9.1, time := p10.1 }

/-- parse_log_line: strip the line, match LOG_PATTERN, coerce the status
group with the 0 fallback, and extract the numeric upstream status codes
(split on commas, strip, keep the purely numeric tokens). -/
def parse_log_line (line : String) : Option LogData :=
  match matchLogPattern (pyStrip line.data) with
  | none => none
  | some m =>
    some { pool := String.mk m.pool
         , release := String.mk m.release
         , status := (pyIntDigits? m.status).getD 0
         , upstream_status := String.mk m.upstream_status
         , upstream_status_codes :=
             (List.splitOn ',' m.upstream_status).filterMap
               (fun tok => pyIntDigits? (pyStrip tok))
         , upstream := String.mk m.upstream
         , request_time := String.mk m.request_time
         , upstream_response_time := String.mk m.upstream_response_time
         , method := String.mk m.method
         , uri := String.mk m.uri
         , time := String.mk m.time }

/-- Whitespace tokenisation helper for the spec-side field predicate. -/
def wsTokensAux : List Char → List Char → List (List Char)
  | [], acc => if acc.isEmpty then [] else [acc.reverse]
  | c :: cs, acc =>
    if pySpace c then
      if acc.isEmpty then wsTokensAux cs []
      else acc.reverse :: wsTokensAux cs []
    else wsTokensAux cs (c :: acc)

/-- The whitespace-separated tokens of a line. -/
def wsTokens (cs : List Char) : List (List Char) := wsTokensAux cs []

def startsWithKey (key tok : List Char) : Bool :=
  match key, tok with
  | [], _ => true
  | _ :: _, [] => false
  | k :: ks, c :: cs => (k == c) && startsWithKey ks cs

def requiredKeys : List (List Char) :=
  [poolKey, releaseKey, statusKey, upstreamStatusKey, upstreamKey,
   requestTimeKey, upstreamResponseTimeKey, methodKey, uriKey, timeKey]

/-- Modelled from the spec wording of the parser contract, for stating the
field-coercion claim: a line contains the ten required fields in the
mandated order when its whitespace-separated tokens begin with the ten
required keys, in order, extra trailing tokens permitted. -/
def hasTenFieldsInOrder (line : String) : Bool :=
  let ts := wsTokens (pyStrip line.data)
  decide (requiredKeys.length ≤ ts.length) &&
    (List.zip requiredKeys ts).all (fun p => startsWithKey p.1 p.2)

/-- The value of the third (status=) token of a line, per the spec-side
tokenisation. -/
def statusTokenValue (line : String) : Option (List Char) :=
  match (wsTokens (pyStrip line.data)).get? 2 with
  | none => none
  | some tok => some (tok.drop statusKey.length)

/-- The pool-field invariant maintained by the monitoring loop: any
recorded pool is a valid (nonempty, non-sentinel) pool name, and once a
failover is recorded, failover_from_pool holds a valid pool different from
the current last_known_pool. -/
def MonInv (s : MonitorState) : Prop :=
  (∀ l, s.last_known_pool = some l → l ≠ "" ∧ l ≠ "-")
  ∧ (s.failover_occurred = true →
      ∃ f l, s.failover_from_pool = some f ∧ s.last_known_pool = some l
        ∧ f ≠ l ∧ f ≠ "" ∧ f ≠ "-")

/- Concrete inputs used by the scenario theorems below. -/

def poolA : String := "A"
def poolB : String := "B"
def bluePool : String := "blue"

/-- A parsed record with the given pool and status (the remaining fields
are placeholders, which the checks never consult). -/
def mkData (pool : String) (status : Nat) : LogData :=
  { pool := pool, release := "r1", status := status, upstream_status := "-"
  , upstream_status_codes := [], upstream := "-", request_time := "-"
  , upstream_response_time := "-", method := "GET", uri := "/", time := "t" }

/-- The default configuration (threshold 2.0, window 200, cooldown 300). -/
def cfgDefault : Config :=
  { slackWebhookConfigured := false, errorRateThreshold := 2, windowSize := 200
  , alertCooldownSec := 300, maintenanceModeEnv := false }

/-- The end-to-end scenario configuration: WINDOW_SIZE=4,
ERROR_RATE_THRESHOLD=25.0. -/
def cfg4 : Config :=
  { slackWebhookConfigured := false, errorRateThreshold := 25, windowSize := 4
  , alertCooldownSec := 300, maintenanceModeEnv := false }

def seqA3 : List LogData := [mkData poolA 200, mkData poolA 200, mkData poolA 200]

def seqA3B : List LogData := seqA3 ++ [mkData poolB 200]

def seqA3B3A : List LogData :=
  seqA3B ++ [mkData poolB 200, mkData poolB 200, mkData poolA 200]

def seqErr4 : List LogData :=
  [mkData bluePool 200, mkData bluePool 200, mkData bluePool 500, mkData bluePool 200]

def seqErr5 : List LogData := seqErr4 ++ [mkData bluePool 500]

/-- A line with the ten required fields in order whose status value is not
numeric. -/
def badStatusLine : String :=
  "pool=a release=r status=xyz upstream_status=- upstream=- request_time=- upstream_response_time=- method=GET uri=/ time=t"

def xyzChars : List Char := ['x', 'y', 'z']

/-- The tail of badStatusLine after its status= key. -/
def badStatusRest : List Char :=
  ("xyz upstream_status=- upstream=- request_time=- upstream_response_time=- method=GET uri=/ time=t").data

/-- A gate state whose every alert kind last fired far in the past. -/
def stFarPast : GateState := { lastAlertTimes := fun _ => -1000 }

/-- A configured-webhook, no-maintenance configuration for the cooldown
scenarios. -/
def cfgHook : Config :=
  { slackWebhookConfigured := true, errorRateThreshold := 2, windowSize := 200
  , alertCooldownSec := 300, maintenanceModeEnv := false }

/-- A configured-webhook configuration with the maintenance flag set. -/
def cfgHookMaint : Config :=
  { slackWebhookConfigured := true, errorRateThreshold := 2, windowSize := 200
  , alertCooldownSec := 300, maintenanceModeEnv := true }

/-
  Theorems.
-/

theorem pushWindow_eq (cfg : Config) (w : List Req) (r : Req) :
    pushWindow cfg w r = (w ++ [r]).drop (w.length + 1 - cfg.windowSize) := by
  unfold pushWindow
  by_cases h : cfg.windowSize < (w ++ [r]).length
  · rw [if_pos h]
    simp
  · rw [if_neg h]
    simp only [List.length_append, List.length_cons, List.length_nil] at h
    have h2 : w.length + 1 - cfg.windowSize = 0 := by omega
    rw [h2, List.drop_zero]

theorem pushAll_eq_drop (cfg : Config) (rs : List Req) :
    ∀ w : List Req, w.length ≤ cfg.windowSize →
      pushAll cfg w rs = (w ++ rs).drop (w.length + rs.length - cfg.windowSize) := by
  induction rs with
  | nil =>
    intro w h
    have h0 : w.length - cfg.windowSize = 0 := by omega
    simp [pushAll, h0]
  | cons r rs ih =>
    intro w h
    have hstep : pushAll cfg w (r :: rs) = pushAll cfg (pushWindow cfg w r) rs := rfl
    have hlen : (pushWindow cfg w r).length ≤ cfg.windowSize := by
      rw [pushWindow_eq]
      simp only [List.length_drop, List.length_append, List.length_cons, List.length_nil]
      omega
    rw [hstep, ih (pushWindow cfg w r) hlen, pushWindow_eq]
    have hd1 : w.length + 1 - cfg.windowSize ≤ (w ++ [r]).length := by
      simp
    rw [← List.drop_append_of_le_length hd1, List.drop_drop]
    have hl : w ++ [r] ++ rs = w ++ r :: rs := by simp
    rw [hl]
    congr 1
    simp only [List.length_drop, List.length_append, List.length_cons, List.length_nil]
    omega

/-- C5: after k pushes into a window of capacity N the window holds exactly
the last min(k, N) records in arrival order (so eviction is FIFO), its
length is min(k, N), and its first element is the oldest of the last N
pushed records. -/
theorem window_invariant (cfg : Config) (rs : List Req) :
    pushAll cfg [] rs = rs.drop (rs.length - cfg.windowSize)
    ∧ (pushAll cfg [] rs).length = min rs.length cfg.windowSize
    ∧ (pushAll cfg [] rs).head? = rs[rs.length - cfg.windowSize]? := by
  have h := pushAll_eq_drop cfg rs [] (by simp)
  simp only [List.nil_append, List.length_nil, Nat.zero_add] at h
  refine ⟨h, ?_, ?_⟩
  · rw [h, List.length_drop]; omega
  · rw [h, List.head?_drop]

/-- C8: get_current_error_rate returns (100 * e / total, e, total) for a
window with e errors out of total records, scanning the whole window, and
returns (0, 0, 0) on an empty window (the division by zero case also
evaluates to 0 in the rationals, making the first equation total). -/
theorem error_rate_formula (w : List Req) :
    get_current_error_rate w
      = (100 * (countErrors w : ℚ) / (w.length : ℚ), countErrors w, w.length)
    ∧ get_current_error_rate [] = ((0 : ℚ), 0, 0) := by
  constructor
  · unfold get_current_error_rate
    by_cases h : w.length = 0
    · have hw : w = [] := List.length_eq_zero.mp h
      subst hw
      simp [countErrors]
    · rw [if_neg h]
      have hc : ((countErrors w : ℚ) / (w.length : ℚ)) * 100
          = 100 * (countErrors w : ℚ) / (w.length : ℚ) := by ring
      simp only []
      rw [hc]
  · rfl

/-- C2: feeding pools A, A, A, B from the initial state, the first record
silently initialises last_known_pool to A with no alert candidate, the
first three records produce no candidates at all, and the fourth produces
exactly one failover candidate from A to B. -/
theorem failover_detection_scenario :
    (processAll cfgDefault initState [mkData poolA 200]).2 = []
    ∧ (processAll cfgDefault initState [mkData poolA 200]).1.last_known_pool = some poolA
    ∧ (processAll cfgDefault initState seqA3).2 = []
    ∧ (processAll cfgDefault initState seqA3B).2 = [AlertCand.failoverCand poolA poolB] := by
  decide

/-- C1 (code behaviour at the claimed scenario): feeding pools
A, A, A, B, B, B, A from the initial state, the code emits two failover
candidates (A to B, then B to A) and no recovery candidate at all; after
the final record the failover state is still set, with failover_from_pool
at B, rather than being reset as the claim requires. -/
theorem recovery_scenario_code_behavior :
    (processAll cfgDefault initState seqA3B3A).2
      = [AlertCand.failoverCand poolA poolB, AlertCand.failoverCand poolB poolA]
    ∧ (processAll cfgDefault initState seqA3B3A).1.failover_occurred = true
    ∧ (processAll cfgDefault initState seqA3B3A).1.failover_from_pool = some poolB := by
  decide

/-- C4: with WINDOW_SIZE = 4 and ERROR_RATE_THRESHOLD = 25.0, statuses
200, 200, 500, 200 fill the window to rate 25.0 percent with no alert
candidate (the window only reaches capacity on the fourth record and 25 is
not strictly above the threshold), and a fifth record with status 500
evicts the oldest 200 leaving 200, 500, 200, 500, rate 50.0 percent, and
emits exactly one error_rate candidate. -/
theorem error_rate_scenario :
    (processAll cfg4 initState seqErr4).2 = []
    ∧ get_current_error_rate (processAll cfg4 initState seqErr4).1.window = (25, 1, 4)
    ∧ (processAll cfg4 initState seqErr5).2 = [AlertCand.errorRateCand 50 2 4 bluePool]
    ∧ ((processAll cfg4 initState seqErr5).1.window.map (fun r => r.status))
        = [200, 500, 200, 500] :=
  ⟨by with_unfolding_all decide, by with_unfolding_all decide,
   by with_unfolding_all decide, by with_unfolding_all decide⟩

/-- C7: while maintenance mode is active (the environment flag or the flag
file, either alone being sufficient), send_slack_alert returns false for
every alert kind whatever the cooldown state and the transport outcome,
and the cooldown table is left untouched. -/
theorem maintenance_mode_suppression (cfg : Config) (ff : Bool) (st : GateState)
    (k : AlertKind) (now : ℚ) (ok : Bool)
    (hM : cfg.maintenanceModeEnv = true ∨ ff = true) :
    is_maintenance_mode cfg ff = true
    ∧ resultBool (send_slack_alert cfg ff st k now ok).1 = false
    ∧ (send_slack_alert cfg ff st k now ok).2 = st := by
  have hmm : is_maintenance_mode cfg ff = true := by
    unfold is_maintenance_mode
    rcases hM with h | h <;> simp [h]
  refine ⟨hmm, ?_, ?_⟩ <;>
  · unfold send_slack_alert
    by_cases hw : cfg.slackWebhookConfigured = false <;> simp [hw, hmm, resultBool]

/-- Witness for C7 at a concrete input: maintenance flag set, failover
kind, cooldown long clear. -/
theorem maintenance_mode_suppression_witness :
    is_maintenance_mode cfgHookMaint false = true
    ∧ resultBool (send_slack_alert cfgHookMaint false stFarPast AlertKind.error_rate 5 true).1
        = false
    ∧ (send_slack_alert cfgHookMaint false stFarPast AlertKind.error_rate 5 true).2
        = stFarPast :=
  maintenance_mode_suppression cfgHookMaint false stFarPast AlertKind.error_rate 5 true
    (Or.inl rfl)

/-- C10: with no webhook configured, send_slack_alert takes the console
branch and returns false before the maintenance and cooldown checks are
reached, for every alert kind, maintenance state, instant and transport
outcome, and never touches the cooldown table. -/
theorem console_only_mode (cfg : Config) (ff : Bool) (st : GateState)
    (k : AlertKind) (now : ℚ) (ok : Bool)
    (hW : cfg.slackWebhookConfigured = false) :
    (send_slack_alert cfg ff st k now ok).1 = SendResult.consolePrinted
    ∧ resultBool (send_slack_alert cfg ff st k now ok).1 = false
    ∧ (send_slack_alert cfg ff st k now ok).2 = st := by
  unfold send_slack_alert
  simp [hW, resultBool]

/-- Witness for C10 at a concrete input: no webhook, maintenance file
present, recovery kind: the console branch is still taken. -/
theorem console_only_mode_witness :
    (send_slack_alert cfgDefault true stFarPast AlertKind.recovery 5 true).1
      = SendResult.consolePrinted
    ∧ resultBool (send_slack_alert cfgDefault true stFarPast AlertKind.recovery 5 true).1
        = false
    ∧ (send_slack_alert cfgDefault true stFarPast AlertKind.recovery 5 true).2
        = stFarPast :=
  console_only_mode cfgDefault true stFarPast AlertKind.recovery 5 true rfl

/-- C6: with a webhook configured and maintenance off, a first qualifying
candidate dispatches successfully and records its instant; a second
candidate of the same kind within the cooldown is suppressed without a
dispatch attempt and without touching the table; a second candidate spaced
beyond the cooldown reaches dispatch again; a failed dispatch returns
false and leaves the table unchanged, so an immediate retry dispatches;
and the table entry of every other kind is untouched. -/
theorem cooldown_discipline (cfg : Config) (st : GateState) (k k2 : AlertKind)
    (t1 t2 t3 : ℚ) (ok2 : Bool)
    (hW : cfg.slackWebhookConfigured = true)
    (hM : cfg.maintenanceModeEnv = false)
    (hQ1 : ¬ (t1 - st.lastAlertTimes k < cfg.alertCooldownSec))
    (hIn : t2 - t1 < cfg.alertCooldownSec)
    (hOut : ¬ (t3 - t1 < cfg.alertCooldownSec))
    (hk2 : k2 ≠ k) :
    (send_slack_alert cfg false st k t1 true).1 = SendResult.sentOk
    ∧ ((send_slack_alert cfg false st k t1 true).2).lastAlertTimes k = t1
    ∧ (send_slack_alert cfg false (send_slack_alert cfg false st k t1 true).2 k t2 ok2).1
        = SendResult.cooldownSuppressed
    ∧ (send_slack_alert cfg false (send_slack_alert cfg false st k t1 true).2 k t2 ok2).2
        = (send_slack_alert cfg false st k t1 true).2
    ∧ isDispatchAttempt
        (send_slack_alert cfg false (send_slack_alert cfg false st k t1 true).2 k t3 ok2).1
        = true
    ∧ (send_slack_alert cfg false st k t1 false).1 = SendResult.sendFailed
    ∧ (send_slack_alert cfg false st k t1 false).2 = st
    ∧ (send_slack_alert cfg false ((send_slack_alert cfg false st k t1 false).2) k t1 true).1
        = SendResult.sentOk
    ∧ ((send_slack_alert cfg false st k t1 true).2).lastAlertTimes k2
        = st.lastAlertTimes k2 := by
  have hmm : is_maintenance_mode cfg false = false := by
    simp [is_maintenance_mode, hM]
  have h1 : send_slack_alert cfg false st k t1 true
      = (SendResult.sentOk,
         { lastAlertTimes := fun kk => if kk = k then t1 else st.lastAlertTimes kk }) := by
    unfold send_slack_alert
    simp [hW, hmm, hQ1]
  have hFail : send_slack_alert cfg false st k t1 false
      = (SendResult.sendFailed, st) := by
    unfold send_slack_alert
    simp [hW, hmm, hQ1]
  refine ⟨by rw [h1], by rw [h1]; simp, ?_, ?_, ?_, by rw [hFail], by rw [hFail], ?_, ?_⟩
  · rw [h1]
    unfold send_slack_alert
    simp [hW, hmm, hIn]
  · rw [h1]
    unfold send_slack_alert
    simp [hW, hmm, hIn]
  · rw [h1]
    unfold send_slack_alert
    cases ok2 <;> simp [hW, hmm, hOut, isDispatchAttempt]
  · rw [hFail]
    rw [h1]
  · rw [h1]
    simp [hk2]

/-- Witness for C6 at a concrete input: cooldown 300 seconds, first
dispatch at instant 0, a suppressed repeat at 100, a dispatched repeat at
400, and an untouched error_rate entry. -/
theorem cooldown_discipline_witness :
    (send_slack_alert cfgHook false stFarPast AlertKind.failover 0 true).1
      = SendResult.sentOk
    ∧ ((send_slack_alert cfgHook false stFarPast AlertKind.failover 0 true).2).lastAlertTimes
        AlertKind.failover = 0
    ∧ (send_slack_alert cfgHook false
        (send_slack_alert cfgHook false stFarPast AlertKind.failover 0 true).2
        AlertKind.failover 100 true).1 = SendResult.cooldownSuppressed
    ∧ (send_slack_alert cfgHook false
        (send_slack_alert cfgHook false stFarPast AlertKind.failover 0 true).2
        AlertKind.failover 100 true).2
        = (send_slack_alert cfgHook false stFarPast AlertKind.failover 0 true).2
    ∧ isDispatchAttempt
        (send_slack_alert cfgHook false
          (send_slack_alert cfgHook false stFarPast AlertKind.failover 0 true).2
          AlertKind.failover 400 true).1 = true
    ∧ (send_slack_alert cfgHook false stFarPast AlertKind.failover 0 false).1
        = SendResult.sendFailed
    ∧ (send_slack_alert cfgHook false stFarPast AlertKind.failover 0 false).2 = stFarPast
    ∧ (send_slack_alert cfgHook false
        ((send_slack_alert cfgHook false stFarPast AlertKind.failover 0 false).2)
        AlertKind.failover 0 true).1 = SendResult.sentOk
    ∧ ((send_slack_alert cfgHook false stFarPast AlertKind.failover 0 true).2).lastAlertTimes
        AlertKind.error_rate = stFarPast.lastAlertTimes AlertKind.error_rate :=
  cooldown_discipline cfgHook stFarPast AlertKind.failover AlertKind.error_rate 0 100 400 true
    rfl rfl (by with_unfolding_all decide) (by with_unfolding_all decide)
    (by with_unfolding_all decide) (by decide)

theorem check_recovery_noop (s : MonitorState) (p : String)
    (h : ∀ f, s.failover_occurred = true → s.failover_from_pool = some f → p ≠ f) :
    check_recovery s p = (s, []) := by
  unfold check_recovery
  by_cases ho : s.failover_occurred = false
  · rw [if_pos ho]
  · have ho2 : s.failover_occurred = true := by
      cases hb : s.failover_occurred
      · exact absurd hb ho
      · rfl
    rw [if_neg ho]
    cases hf : s.failover_from_pool with
    | none => rfl
    | some f =>
      dsimp only
      by_cases hfe : f = ""
      · rw [if_pos hfe]
      · rw [if_neg hfe, if_neg (h f ho2 hf)]

theorem step_no_recovery (s : MonitorState) (p : String) (h : MonInv s) :
    (check_recovery (check_failover s p).1 p).2 = []
    ∧ MonInv (check_recovery (check_failover s p).1 p).1 := by
  obtain ⟨hval, hfo⟩ := h
  by_cases hp : p = "" ∨ p = "-"
  · have hcf : check_failover s p = (s, []) := by
      unfold check_failover
      rw [if_pos hp]
    rw [hcf]
    have hnr : check_recovery s p = (s, []) := by
      apply check_recovery_noop
      intro f ho hf
      obtain ⟨f2, l, hf2, hl, hfl, hfe, hfd⟩ := hfo ho
      rw [hf] at hf2
      injection hf2 with hff
      subst hff
      intro hpf
      rcases hp with hp | hp
      · exact hfe (hpf ▸ hp)
      · exact hfd (hpf ▸ hp)
    rw [hnr]
    exact ⟨rfl, hval, hfo⟩
  · push_neg at hp
    obtain ⟨hpe, hpd⟩ := hp
    cases hlk : s.last_known_pool with
    | none =>
      have ho : s.failover_occurred = false := by
        cases hb : s.failover_occurred
        · rfl
        · obtain ⟨f, l, _, hl, _⟩ := hfo hb
          rw [hlk] at hl
          exact Option.noConfusion hl
      have hcf : check_failover s p
          = ({ s with last_known_pool := some p }, []) := by
        unfold check_failover
        rw [if_neg (by push_neg; exact ⟨hpe, hpd⟩), hlk]
      rw [hcf]
      have hnr : check_recovery { s with last_known_pool := some p } p
          = ({ s with last_known_pool := some p }, []) := by
        apply check_recovery_noop
        intro f hocc _
        exact absurd hocc (by simp [ho])
      rw [hnr]
      refine ⟨rfl, ?_, ?_⟩
      · intro l hl
        injection hl with hl2
        exact hl2 ▸ ⟨hpe, hpd⟩
      · intro hocc
        exact absurd hocc (by simp [ho])
    | some last =>
      by_cases hpl : p = last
      · have hcf : check_failover s p = (s, []) := by
          unfold check_failover
          rw [if_neg (by push_neg; exact ⟨hpe, hpd⟩), hlk]
          simp [hpl]
        rw [hcf]
        have hnr : check_recovery s p = (s, []) := by
          apply check_recovery_noop
          intro f ho hf
          obtain ⟨f2, l, hf2, hl, hfl, _, _⟩ := hfo ho
          rw [hf] at hf2
          injection hf2 with hff
          subst hff
          rw [hlk] at hl
          injection hl with hll
          subst hll
          rw [hpl]
          exact fun he => hfl he.symm
        rw [hnr]
        exact ⟨rfl, hval, hfo⟩
      · have hcf : check_failover s p
            = ({ s with failover_occurred := true
                      , failover_from_pool := some last
                      , last_known_pool := some p },
               [AlertCand.failoverCand last p]) := by
          unfold check_failover
          rw [if_neg (by push_neg; exact ⟨hpe, hpd⟩), hlk]
          simp [hpl]
        rw [hcf]
        have hnr : check_recovery
            { s with failover_occurred := true
                   , failover_from_pool := some last
                   , last_known_pool := some p } p
            = ({ s with failover_occurred := true
                      , failover_from_pool := some last
                      , last_known_pool := some p }, []) := by
          apply check_recovery_noop
          intro f _ hf
          injection hf with hff
          subst hff
          exact hpl
        rw [hnr]
        obtain ⟨hle, hld⟩ := hval last hlk
        refine ⟨rfl, ?_, ?_⟩
        · intro l hl
          injection hl with hl2
          exact hl2 ▸ ⟨hpe, hpd⟩
        · intro _
          exact ⟨last, p, rfl, rfl, fun he => hpl he.symm, hle, hld⟩

theorem check_failover_no_recovery_cand (s : MonitorState) (p : String) :
    ((check_failover s p).2.filter isRecoveryCand) = [] := by
  unfold check_failover
  by_cases hp : p = "" ∨ p = "-"
  · rw [if_pos hp]
    rfl
  · rw [if_neg hp]
    cases s.last_known_pool with
    | none => rfl
    | some last =>
      dsimp only
      by_cases hpl : p ≠ last
      · rw [if_pos hpl]
        rfl
      · rw [if_neg hpl]
        rfl

theorem check_error_rate_no_recovery_cand (cfg : Config) (w : List Req) :
    ((check_error_rate cfg w).filter isRecoveryCand) = [] := by
  unfold check_error_rate
  by_cases hl : w.length < cfg.windowSize
  · rw [if_pos hl]
    rfl
  · rw [if_neg hl]
    dsimp only
    by_cases hr : cfg.errorRateThreshold
        < ((countErrors w : ℚ) / (w.length : ℚ)) * 100
    · rw [if_pos hr]
      rfl
    · rw [if_neg hr]
      rfl

theorem process_no_recovery (cfg : Config) (s : MonitorState) (d : LogData)
    (h : MonInv s) :
    ((process_log_entry cfg s d).2.filter isRecoveryCand) = []
    ∧ MonInv (process_log_entry cfg s d).1 := by
  have h0 : MonInv { s with window := pushWindow cfg s.window (reqOf d) } := h
  obtain ⟨hrc, hinv⟩ := step_no_recovery _ d.pool h0
  constructor
  · show (((check_failover _ d.pool).2
        ++ (check_recovery (check_failover _ d.pool).1 d.pool).2
        ++ check_error_rate cfg (check_recovery (check_failover _ d.pool).1 d.pool).1.window).filter
          isRecoveryCand) = []
    rw [List.filter_append, List.filter_append, hrc,
      check_failover_no_recovery_cand, check_error_rate_no_recovery_cand]
    rfl
  · exact hinv

theorem processAll_no_recovery (cfg : Config) (ds : List LogData) :
    ∀ s, MonInv s →
      ((processAll cfg s ds).2.filter isRecoveryCand) = []
      ∧ MonInv (processAll cfg s ds).1 := by
  induction ds with
  | nil =>
    intro s h
    exact ⟨rfl, h⟩
  | cons d rest ih =>
    intro s h
    obtain ⟨h1, h2⟩ := process_no_recovery cfg s d h
    obtain ⟨h3, h4⟩ := ih (process_log_entry cfg s d).1 h2
    constructor
    · show (((process_log_entry cfg s d).2
          ++ (processAll cfg (process_log_entry cfg s d).1 rest).2).filter
            isRecoveryCand) = []
      rw [List.filter_append, h1, h3]
      rfl
    · exact h4

/-- C9: from the initial state, no finite sequence of parsed records ever
makes process_log_entry emit a recovery alert candidate: check_failover
runs first and on any pool change stores the pool just left in
failover_from_pool while moving last_known_pool to the new pool, so the
recovery condition compares the current pool against a pool it can never
equal. -/
theorem no_recovery_ever (cfg : Config) (ds : List LogData) :
    ((processAll cfg initState ds).2.filter isRecoveryCand) = [] := by
  refine (processAll_no_recovery cfg ds initState ⟨?_, ?_⟩).1
  · intro l hl
    simp [initState] at hl
  · intro hx
    simp [initState] at hx

theorem matchLit_app (ks cs : List Char) : matchLit ks (ks ++ cs) = some cs := by
  induction ks with
  | nil => rfl
  | cons k ks ih => simp [matchLit, ih]

theorem takeWhile_all_app (p : Char → Bool) (xs ys : List Char) (h : xs.all p = true) :
    (xs ++ ys).takeWhile p = xs ++ ys.takeWhile p := by
  induction xs with
  | nil => rfl
  | cons x xs ih =>
    rw [List.all_cons, Bool.and_eq_true] at h
    simp [List.takeWhile, h.1, ih h.2]

theorem dropWhile_all_app (p : Char → Bool) (xs ys : List Char) (h : xs.all p = true) :
    (xs ++ ys).dropWhile p = ys.dropWhile p := by
  induction xs with
  | nil => rfl
  | cons x xs ih =>
    rw [List.all_cons, Bool.and_eq_true] at h
    simp [List.dropWhile, h.1, ih h.2]

theorem space_not_digit (c : Char) (h : pySpace c = true) : c.isDigit = false := by
  unfold pySpace at h
  simp only [Bool.or_eq_true, beq_iff_eq] at h
  rcases h with ((((h | h) | h) | h) | h) | h <;> subst h <;> decide

theorem matchFieldSp_app (key v sp : List Char) (c2 : Char) (r2 : List Char)
    (hv : v.all (fun c => !pySpace c) = true)
    (hsp : sp.all pySpace = true) (hspn : sp ≠ [])
    (hc2 : pySpace c2 = false) :
    matchFieldSp key (key ++ (v ++ (sp ++ (c2 :: r2)))) = some (v, c2 :: r2) := by
  obtain ⟨s, sp2, rfl⟩ : ∃ s sp2, sp = s :: sp2 := by
    cases sp with
    | nil => exact absurd rfl hspn
    | cons a b => exact ⟨a, b, rfl⟩
  rw [List.all_cons, Bool.and_eq_true] at hsp
  obtain ⟨hs, hsp2⟩ := hsp
  unfold matchFieldSp matchField
  rw [matchLit_app]
  dsimp only
  rw [List.cons_append]
  rw [takeWhile_all_app _ _ _ hv, dropWhile_all_app _ _ _ hv]
  have ht : ((s :: (sp2 ++ (c2 :: r2))).takeWhile (fun c => !pySpace c)) = [] := by
    simp [List.takeWhile, hs]
  have hdw : ((s :: (sp2 ++ (c2 :: r2))).dropWhile (fun c => !pySpace c))
      = s :: (sp2 ++ (c2 :: r2)) := by
    simp [List.dropWhile, hs]
  rw [ht, hdw, List.append_nil]
  have hms : matchSpaces1 (s :: (sp2 ++ (c2 :: r2)))
      = some ((sp2 ++ (c2 :: r2)).dropWhile pySpace) := by
    simp [matchSpaces1, hs]
  rw [hms]
  rw [dropWhile_all_app _ _ _ hsp2]
  simp [List.dropWhile, hc2]

theorem status_digits_fail (rest : List Char)
    (hbad : pyIntDigits? (rest.takeWhile (fun c => !pySpace c)) = none) :
    rest.takeWhile Char.isDigit = [] ∨ matchSpaces1 (rest.dropWhile Char.isDigit) = none := by
  induction rest with
  | nil => left; rfl
  | cons c r ih =>
    by_cases hd : c.isDigit = true
    · have hcs : pySpace c = false := by
        cases hps : pySpace c
        · rfl
        · rw [space_not_digit c hps] at hd
          exact absurd hd (by simp)
      rw [show ((c :: r).takeWhile (fun x => !pySpace x))
          = c :: r.takeWhile (fun x => !pySpace x) from by simp [List.takeWhile, hcs]] at hbad
      have h1 : ¬((c :: r.takeWhile (fun x => !pySpace x)) ≠ []
          ∧ (c :: r.takeWhile (fun x => !pySpace x)).all Char.isDigit) := by
        intro hcon
        rw [pyIntDigits?, if_pos hcon] at hbad
        exact Option.noConfusion hbad
      have h2 : ¬((c :: r.takeWhile (fun x => !pySpace x)).all Char.isDigit = true) := by
        intro h4
        exact h1 ⟨by simp, h4⟩
      have h3 : (r.takeWhile (fun x => !pySpace x)).all Char.isDigit = false := by
        cases htw : (r.takeWhile (fun x => !pySpace x)).all Char.isDigit
        · rfl
        · exact absurd (by rw [List.all_cons, Bool.and_eq_true]; exact ⟨hd, htw⟩) h2
      have htwne : r.takeWhile (fun x => !pySpace x) ≠ [] := by
        intro h0
        rw [h0] at h3
        exact Bool.noConfusion h3
      have hbad2 : pyIntDigits? (r.takeWhile (fun x => !pySpace x)) = none := by
        rw [pyIntDigits?, if_neg]
        intro hcon
        rw [h3] at hcon
        exact Bool.noConfusion hcon.2
      rcases ih hbad2 with h5 | h5
      · right
        rw [show ((c :: r).dropWhile Char.isDigit) = r.dropWhile Char.isDigit from by
          simp [List.dropWhile, hd]]
        cases r with
        | nil => exact absurd rfl htwne
        | cons x xs =>
          have hx : x.isDigit = false := by
            cases hxx : x.isDigit
            · rfl
            · exfalso
              simp [List.takeWhile, hxx] at h5
          have hxs : pySpace x = false := by
            cases hps : pySpace x
            · rfl
            · exact absurd (by simp [List.takeWhile, hps]) htwne
          rw [show ((x :: xs).dropWhile Char.isDigit) = x :: xs from by
            simp [List.dropWhile, hx]]
          simp [matchSpaces1, hxs]
      · right
        rw [show ((c :: r).dropWhile Char.isDigit) = r.dropWhile Char.isDigit from by
          simp [List.dropWhile, hd]]
        exact h5
    · left
      have hd2 : c.isDigit = false := by
        cases hh : c.isDigit
        · rfl
        · exact absurd hh hd
      simp [List.takeWhile, hd2]

theorem matchStatusSp_none (rest : List Char)
    (hbad : pyIntDigits? (rest.takeWhile (fun c => !pySpace c)) = none) :
    matchStatusSp (statusKey ++ rest) = none := by
  unfold matchStatusSp
  rw [matchLit_app]
  dsimp only
  rcases status_digits_fail rest hbad with h | h
  · simp [h]
  · by_cases hds : rest.takeWhile Char.isDigit = []
    · simp [hds]
    · simp [hds, h]

/-- C3 counterexample: badStatusLine carries the ten required fields in
the mandated order and its status value xyz fails non-negative-integer
parsing, yet parse_log_line yields no record at all (rather than a record
with status 0): the \d+ status group makes the whole pattern fail. -/
theorem status_coercion_cex :
    hasTenFieldsInOrder badStatusLine = true
    ∧ statusTokenValue badStatusLine = some xyzChars
    ∧ pyIntDigits? xyzChars = none
    ∧ parse_log_line badStatusLine = none := by
  decide

/-- C3 (amended): any line whose stripped text carries the pool and
release fields in order followed by status= whose whitespace-delimited
value fails to parse as a non-negative integer is skipped entirely by the
parser, whatever follows: no record is yielded, so the 0 fallback for the
status field is never exercised. -/
theorem parse_skips_bad_status (line : String) (v0 v1 sp1 sp2 rest : List Char)
    (hdec : pyStrip line.data
      = poolKey ++ (v0 ++ (sp1 ++ (releaseKey ++ (v1 ++ (sp2 ++ (statusKey ++ rest)))))))
    (hv0 : v0.all (fun c => !pySpace c) = true)
    (hv1 : v1.all (fun c => !pySpace c) = true)
    (hsp1 : sp1.all pySpace = true) (hsp1n : sp1 ≠ [])
    (hsp2 : sp2.all pySpace = true) (hsp2n : sp2 ≠ [])
    (hbad : pyIntDigits? (rest.takeWhile (fun c => !pySpace c)) = none) :
    parse_log_line line = none := by
  unfold parse_log_line
  rw [hdec]
  unfold matchLogPattern
  have h1 : matchFieldSp poolKey
      (poolKey ++ (v0 ++ (sp1 ++ (releaseKey ++ (v1 ++ (sp2 ++ (statusKey ++ rest)))))))
      = some (v0, releaseKey ++ (v1 ++ (sp2 ++ (statusKey ++ rest)))) :=
    matchFieldSp_app poolKey v0 sp1 'r'
      (("elease=").data ++ (v1 ++ (sp2 ++ (statusKey ++ rest))))
      hv0 hsp1 hsp1n (by decide)
  rw [h1]
  dsimp only [Option.bind]
  have h2 : matchFieldSp releaseKey (releaseKey ++ (v1 ++ (sp2 ++ (statusKey ++ rest))))
      = some (v1, statusKey ++ rest) :=
    matchFieldSp_app releaseKey v1 sp2 's' (("tatus=").data ++ rest)
      hv1 hsp2 hsp2n (by decide)
  rw [h2]
  dsimp only [Option.bind]
  rw [matchStatusSp_none rest hbad]

/-- Witness for the amended C3 at the concrete badStatusLine. -/
theorem parse_skips_bad_status_witness :
    pyIntDigits? (badStatusRest.takeWhile (fun c => !pySpace c)) = none
    ∧ parse_log_line badStatusLine = none :=
  ⟨by decide,
   parse_skips_bad_status badStatusLine ['a'] ['r'] [' '] [' '] badStatusRest
     (by decide) (by decide) (by decide) (by decide) (by decide) (by decide)
     (by decide) (by decide)⟩
